import Mathlib

/- Shallow embedding of the maowbot VR overlay wrapper
   (src/maowbot-overlay/src/openvr_wrapper.cpp, openvr_wrapper_gl.cpp and
   openvr_wrapper_stub.cpp).  Machine floats are modeled as rationals,
   C integers as Int or Nat, and every call into the external OpenVR
   runtime is modeled as an explicit parameter: device reports for
   GetLastPoses / GetControllerState, an intersection oracle for
   ComputeOverlayIntersection, a submission outcome for SetOverlayTexture,
   and Option-valued results for overlay creation.  The mutable file-scope
   globals of the C translation units become the fields of GlState, and
   each extern function becomes a state-passing Lean function. -/

/-- One chat message: fixed-capacity author and text fields in C (char[64], char[256]), modeled as strings since the replace operation copies the structs verbatim. -/
structure ChatMessage where
  author : String
  text : String
deriving DecidableEq

/-- The part of VRControllerState_t that the wrapper reads: rAxis[1].x (the trigger axis) and ulButtonPressed (the 64-bit button mask). -/
structure VRControllerState where
  triggerAxis : ℚ
  ulButtonPressed : ℕ
deriving DecidableEq

/-- HmdMatrix34_t: a 3 by 4 row-major pose matrix. -/
structure HmdMatrix34 where
  m00 : ℚ
  m01 : ℚ
  m02 : ℚ
  m03 : ℚ
  m10 : ℚ
  m11 : ℚ
  m12 : ℚ
  m13 : ℚ
  m20 : ℚ
  m21 : ℚ
  m22 : ℚ
  m23 : ℚ
deriving DecidableEq

/-- HmdVector3_t. -/
structure HmdVector3 where
  x : ℚ
  y : ℚ
  z : ℚ
deriving DecidableEq

/-- ETrackedControllerRole, restricted to the cases the wrapper distinguishes. -/
inductive ETrackedControllerRole where
  | invalid
  | leftHand
  | rightHand
  | optOut
deriving DecidableEq

/-- ETrackedDeviceClass, restricted to the cases the wrapper distinguishes. -/
inductive TrackedDeviceKind where
  | invalid
  | hmd
  | controller
  | genericTracker
  | trackingReference
  | other
deriving DecidableEq

/-- The per-slot ControllerState struct of the wrapper. -/
structure ControllerState where
  connected : Bool
  device_index : ℕ
  state : VRControllerState
  prev_state : VRControllerState
  pose : HmdMatrix34
  has_pose : Bool
  trigger_pressed : Bool
  trigger_released : Bool
deriving DecidableEq

/-- DashboardState struct: visibility toggle and active settings tab. -/
structure DashboardState where
  show_settings : Bool
  current_tab : Int
deriving DecidableEq

/-- LaserHit struct returned by vr_test_laser_intersection. -/
structure LaserHit where
  hit : Bool
  u : ℚ
  v : ℚ
  distance : ℚ
deriving DecidableEq

/-- The dashboard overlay events that vr_process_dashboard_events folds into the injected mouse state. -/
inductive VREvent where
  | mouseMove (x y : ℚ)
  | mouseButtonDown (button : ℕ)
  | mouseButtonUp (button : ℕ)
  | otherEvent
deriving DecidableEq

/-- What the OpenVR runtime reports for a single tracked device index during one vr_update_controllers tick: device kind, controller role, the pose entry and the controller state. -/
structure DeviceReport where
  device_index : ℕ
  deviceKind : TrackedDeviceKind
  role : ETrackedControllerRole
  bDeviceIsConnected : Bool
  bPoseIsValid : Bool
  mDeviceToAbsoluteTracking : HmdMatrix34
  controller_state : VRControllerState

/-- k_ulOverlayHandleInvalid: the invalid overlay handle sentinel. -/
def k_ulOverlayHandleInvalid : ℕ := 0

/-- k_unTrackedDeviceIndexInvalid. -/
def k_unTrackedDeviceIndexInvalid : ℕ := 4294967295

/-- FLT_MAX, the single-precision maximum (2 - 2 to the -23) times 2 to the 127, used by the wrapper as the no-hit distance sentinel. -/
def FLT_MAX : ℚ := 2 ^ 128 - 2 ^ 104

/-- VRMouseButton_Left. -/
def VRMouseButton_Left : ℕ := 1

/-- k_EButton_ApplicationMenu. -/
def k_EButton_ApplicationMenu : ℕ := 1

/-- ButtonMaskFromId: 1 shifted left by the button id. -/
def ButtonMaskFromId (id : ℕ) : ℕ := 2 ^ id

/-- The zero matrix, the value of a zero-initialized HmdMatrix34_t global. -/
def zeroMatrix34 : HmdMatrix34 := ⟨0, 0, 0, 0, 0, 0, 0, 0, 0, 0, 0, 0⟩

/-- The file-scope mutable globals of openvr_wrapper_gl.cpp gathered into one state record.  The two-element g_controllers array is split into two fields. -/
structure GlState where
  g_handle : ℕ
  g_dashboard_handle : ℕ
  g_keyboard_handle : ℕ
  g_controller0 : ControllerState
  g_controller1 : ControllerState
  g_current_tex : ℕ
  g_dashboard_current_tex : ℕ
  g_keyboard_current_tex : ℕ
  g_mouse_x : ℚ
  g_mouse_y : ℚ
  g_mouse_down : Bool
  g_chat_messages : List ChatMessage
  g_input_buffer : List ℕ
  g_message_sent : Bool
  g_dashboard_state : DashboardState
  g_dashboard_state_changed : Bool
deriving DecidableEq

/-- A zero-initialized VRControllerState_t, as in the static-storage globals. -/
def initVRControllerState : VRControllerState := ⟨0, 0⟩

/-- The default-initialized ControllerState of the global g_controllers array. -/
def initController : ControllerState :=
  ⟨false, k_unTrackedDeviceIndexInvalid, initVRControllerState, initVRControllerState,
    zeroMatrix34, false, false, false⟩

/-- The globals at process start: invalid handles, default controllers, write indices 0, empty chat, no pending message, dashboard state not dirty. -/
def initGlState : GlState where
  g_handle := k_ulOverlayHandleInvalid
  g_dashboard_handle := k_ulOverlayHandleInvalid
  g_keyboard_handle := k_ulOverlayHandleInvalid
  g_controller0 := initController
  g_controller1 := initController
  g_current_tex := 0
  g_dashboard_current_tex := 0
  g_keyboard_current_tex := 0
  g_mouse_x := 0
  g_mouse_y := 0
  g_mouse_down := false
  g_chat_messages := []
  g_input_buffer := []
  g_message_sent := false
  g_dashboard_state := ⟨false, 0⟩
  g_dashboard_state_changed := false

/-- Read of g_controllers[controller_idx]; only reached after the range check, out-of-range branch mirrors the array layout falling through to slot 1. -/
def getController (s : GlState) (controller_idx : Int) : ControllerState :=
  if controller_idx = 0 then s.g_controller0 else s.g_controller1

/-- Write of g_controllers[idx] for idx in 0 or 1. -/
def setController (s : GlState) (idx : ℕ) (c : ControllerState) : GlState :=
  if idx = 0 then { s with g_controller0 := c } else { s with g_controller1 := c }

/-- The body of the device loop of vr_update_controllers for one matched controller: record connection and pose, shift the current state into prev_state, take the freshly polled state, and derive the trigger edge flags against the 0.5 axis threshold (the 0.5f float literal, written mkRat 1 2 so that the kernel can evaluate it). -/
def updateControllerSlot (c : ControllerState) (r : DeviceReport) : ControllerState :=
  let was_pressed := decide (c.state.triggerAxis > mkRat 1 2)
  let is_pressed := decide (r.controller_state.triggerAxis > mkRat 1 2)
  { connected := r.bDeviceIsConnected
    device_index := r.device_index
    state := r.controller_state
    prev_state := c.state
    pose := if r.bPoseIsValid then r.mDeviceToAbsoluteTracking else c.pose
    has_pose := r.bPoseIsValid
    trigger_pressed := !was_pressed && is_pressed
    trigger_released := was_pressed && !is_pressed }

/-- vr_update_controllers: one tick over the runtime device table.  Devices that are not controllers or have an invalid role are skipped; the left-hand role maps to slot 0 and every other valid role to slot 1. -/
def vr_update_controllers (s : GlState) (reports : List DeviceReport) : GlState :=
  reports.foldl
    (fun acc r =>
      if r.deviceKind = TrackedDeviceKind.controller then
        if r.role = ETrackedControllerRole.invalid then acc
        else
          let idx := if r.role = ETrackedControllerRole.leftHand then 0 else 1
          setController acc idx
            (updateControllerSlot (if idx = 0 then acc.g_controller0 else acc.g_controller1) r)
      else acc)
    s

/-- vr_get_controller_connected. -/
def vr_get_controller_connected (s : GlState) (controller_idx : Int) : GlState × Bool :=
  if controller_idx < 0 ∨ controller_idx > 1 then (s, false)
  else (s, (getController s controller_idx).connected)

/-- vr_get_controller_trigger_value: 0.0 out of range or when not connected, else the stored trigger axis. -/
def vr_get_controller_trigger_value (s : GlState) (controller_idx : Int) : GlState × ℚ :=
  if controller_idx < 0 ∨ controller_idx > 1 then (s, 0)
  else if !(getController s controller_idx).connected then (s, 0)
  else (s, (getController s controller_idx).state.triggerAxis)

/-- vr_get_controller_trigger_pressed: range check only, then the stored edge flag. -/
def vr_get_controller_trigger_pressed (s : GlState) (controller_idx : Int) : GlState × Bool :=
  if controller_idx < 0 ∨ controller_idx > 1 then (s, false)
  else (s, (getController s controller_idx).trigger_pressed)

/-- vr_get_controller_trigger_released: range check only, then the stored edge flag. -/
def vr_get_controller_trigger_released (s : GlState) (controller_idx : Int) : GlState × Bool :=
  if controller_idx < 0 ∨ controller_idx > 1 then (s, false)
  else (s, (getController s controller_idx).trigger_released)

/-- vr_get_controller_menu_pressed: range and connected checks, then the edge test on the application-menu bit of the button masks. -/
def vr_get_controller_menu_pressed (s : GlState) (controller_idx : Int) : GlState × Bool :=
  if controller_idx < 0 ∨ controller_idx > 1 then (s, false)
  else if !(getController s controller_idx).connected then (s, false)
  else
    let mask := ButtonMaskFromId k_EButton_ApplicationMenu
    let was_pressed := decide ((getController s controller_idx).prev_state.ulButtonPressed &&& mask ≠ 0)
    let is_pressed := decide ((getController s controller_idx).state.ulButtonPressed &&& mask ≠ 0)
    (s, !was_pressed && is_pressed)

/-- vr_trigger_haptic_pulse: the returned option is the pulse command issued to the runtime (device index and duration), none when the call is a no-op. -/
def vr_trigger_haptic_pulse (s : GlState) (controller_idx : Int) (duration_us : ℕ) :
    GlState × Option (ℕ × ℕ) :=
  if controller_idx < 0 ∨ controller_idx > 1 then (s, none)
  else if !(getController s controller_idx).connected then (s, none)
  else (s, some ((getController s controller_idx).device_index, duration_us))

/-- The no-hit result literal of vr_test_laser_intersection. -/
def noLaserHit : LaserHit := ⟨false, 0, 0, FLT_MAX⟩

/-- vr_test_laser_intersection.  The rt argument is the ComputeOverlayIntersection primitive of the runtime, taking the ray origin (the pose translation) and direction (the negated local Z axis in world space). -/
def vr_test_laser_intersection (s : GlState) (controller_idx : Int) (handle : ℕ)
    (rt : HmdVector3 → HmdVector3 → Option (ℚ × ℚ × ℚ)) : GlState × LaserHit :=
  if controller_idx < 0 ∨ controller_idx > 1 then (s, noLaserHit)
  else if !(getController s controller_idx).connected then (s, noLaserHit)
  else if !(getController s controller_idx).has_pose then (s, noLaserHit)
  else if handle = k_ulOverlayHandleInvalid then (s, noLaserHit)
  else
    let p := (getController s controller_idx).pose
    let origin : HmdVector3 := ⟨p.m03, p.m13, p.m23⟩
    let direction : HmdVector3 := ⟨-p.m02, -p.m12, -p.m22⟩
    match rt origin direction with
    | some (u_, v_, d_) => (s, ⟨true, u_, v_, d_⟩)
    | none => (s, noLaserHit)

/-- imgui_render_hud (and the DX11 imgui_render_and_submit, whose tail is identical): render, submit the current texture, and advance the HUD write index modulo 2 whatever the submission outcome was. -/
def imgui_render_hud (s : GlState) (submit_ok : Bool) : GlState × Bool :=
  ({ s with g_current_tex := (s.g_current_tex + 1) % 2 }, submit_ok)

/-- One switch case of the event drain loop in vr_process_dashboard_events; only the left mouse button updates the button flag. -/
def apply_dashboard_event (s : GlState) (e : VREvent) : GlState :=
  match e with
  | VREvent.mouseMove x y => { s with g_mouse_x := x, g_mouse_y := y }
  | VREvent.mouseButtonDown b =>
      if b = VRMouseButton_Left then { s with g_mouse_down := true } else s
  | VREvent.mouseButtonUp b =>
      if b = VRMouseButton_Left then { s with g_mouse_down := false } else s
  | VREvent.otherEvent => s

/-- vr_process_dashboard_events: drain the pending dashboard overlay events into the injected mouse state. -/
def vr_process_dashboard_events (s : GlState) (events : List VREvent) : GlState :=
  events.foldl apply_dashboard_event s

/-- imgui_render_dashboard: drain dashboard events, render, submit, and advance the dashboard write index modulo 2 whatever the submission outcome was. -/
def imgui_render_dashboard (s : GlState) (events : List VREvent) (submit_ok : Bool) :
    GlState × Bool :=
  let s2 := vr_process_dashboard_events s events
  ({ s2 with g_dashboard_current_tex := (s2.g_dashboard_current_tex + 1) % 2 }, submit_ok)

/-- The GL imgui_render_and_submit dispatcher. -/
def imgui_render_and_submit (s : GlState) (events : List VREvent) (submit_ok : Bool)
    (is_dashboard : Bool) : GlState × Bool :=
  if is_dashboard then imgui_render_dashboard s events submit_ok
  else imgui_render_hud s submit_ok

/-- vr_keyboard_render, reduced to its control flow on the keyboard write index: an invalid handle returns false before any rendering, otherwise the texture is submitted and the keyboard write index advances modulo 2 whatever the outcome was. -/
def vr_keyboard_render (s : GlState) (handle : ℕ) (submit_ok : Bool) : GlState × Bool :=
  if handle = k_ulOverlayHandleInvalid then (s, false)
  else ({ s with g_keyboard_current_tex := (s.g_keyboard_current_tex + 1) % 2 }, submit_ok)

/-- A sequence of HUD render-and-submit calls with the given submission outcomes. -/
def run_hud_submits (s : GlState) (oks : List Bool) : GlState :=
  oks.foldl (fun acc ok => (imgui_render_hud acc ok).1) s

/-- imgui_update_chat_state: clear the stored transcript, then push each incoming message in order; a null pointer or a zero count leaves it cleared. -/
def imgui_update_chat_state (s : GlState) (messages : Option (List ChatMessage)) : GlState :=
  let cleared := { s with g_chat_messages := [] }
  match messages with
  | some msgs =>
      if msgs.length > 0 then
        { cleared with
          g_chat_messages := msgs.foldl (fun acc m => acc ++ [m]) cleared.g_chat_messages }
      else cleared
  | none => cleared

/-- The chat-transcript part of the globals of openvr_wrapper_stub.cpp. -/
structure StubState where
  g_chat_messages : List ChatMessage
deriving DecidableEq

/-- The stub variant of imgui_update_chat_state: its body is empty, the stub keeps its own test messages and deliberately does not clear them when updating. -/
def stub_imgui_update_chat_state (s : StubState) (_messages : Option (List ChatMessage)) :
    StubState :=
  s

/-- strncpy into a destination of n bytes: at most n source bytes are copied, and the remainder up to n is zero filled. -/
def strncpy_fill (src : List ℕ) (n : ℕ) : List ℕ :=
  src.take n ++ List.replicate (n - src.length) 0

/-- imgui_get_sent_message: when a message is pending, the buffer is non-null and the capacity positive, strncpy copies at most capacity - 1 bytes, a null byte is stored at index capacity - 1, the pending flag is cleared and the input buffer emptied.  The returned option is the full written contents of the caller buffer (of length exactly capacity). -/
def imgui_get_sent_message (s : GlState) (buffer_nonnull : Bool) (capacity : ℕ) :
    GlState × Option (List ℕ) :=
  if s.g_message_sent && buffer_nonnull && decide (0 < capacity) then
    ({ s with g_message_sent := false, g_input_buffer := [] },
      some (strncpy_fill s.g_input_buffer (capacity - 1) ++ [0]))
  else (s, none)

/-- imgui_update_dashboard_state: a non-null update overwrites the state and latches the dirty flag. -/
def imgui_update_dashboard_state (s : GlState) (st : Option DashboardState) : GlState :=
  match st with
  | some v => { s with g_dashboard_state := v, g_dashboard_state_changed := true }
  | none => s

/-- imgui_get_dashboard_state: destructive single-slot read; yields the state only when the dirty flag is set, and clears the flag. -/
def imgui_get_dashboard_state (s : GlState) (out_nonnull : Bool) :
    GlState × Option DashboardState :=
  if out_nonnull && s.g_dashboard_state_changed then
    ({ s with g_dashboard_state_changed := false }, some s.g_dashboard_state)
  else (s, none)

/-- vr_create_overlays.  The live argument is the list of overlay handles currently allocated inside the runtime; hud_result and dash_result are the outcomes of the two runtime creation calls.  On dashboard failure the already-created HUD overlay is destroyed and g_handle reset to the invalid sentinel. -/
def vr_create_overlays (s : GlState) (live : List ℕ) (hud_result dash_result : Option ℕ) :
    GlState × List ℕ × Bool :=
  match hud_result with
  | none => (s, live, false)
  | some h =>
      let s1 := { s with g_handle := h }
      let live1 := h :: live
      match dash_result with
      | none => ({ s1 with g_handle := k_ulOverlayHandleInvalid }, live1.erase h, false)
      | some d => ({ s1 with g_dashboard_handle := d }, d :: live1, true)

/-- The keyboard button side length (button_size in vr_keyboard_render). -/
def button_size : ℚ := 35

/-- The keyboard button spacing. -/
def key_spacing : ℚ := 2

/-- The number of keys in each of the four keyboard rows (the row strings of vr_keyboard_render). -/
def kbRowLength : ℕ → ℕ
  | 0 => 12
  | 1 => 10
  | 2 => 9
  | _ => 7

/-- x_offset of a keyboard row: 10 plus 30 for the bottom row, else 15 per row. -/
def key_x_offset (row : ℕ) : ℚ :=
  10 + (if row = 3 then 30 else (row : ℚ) * 15)

/-- y_offset of a keyboard row. -/
def key_y_offset (row : ℕ) : ℚ :=
  80 + (row : ℚ) * (button_size + key_spacing)

/-- btn_x of key i in a keyboard row. -/
def key_btn_x (row i : ℕ) : ℚ :=
  key_x_offset row + (i : ℚ) * (button_size + key_spacing)

/-- The is_hovered test of vr_keyboard_render for a grid key: four inclusive comparisons against the hand-computed bounding box. -/
def key_is_hovered (row i : ℕ) (selected_x selected_y : ℚ) : Bool :=
  decide (selected_x ≥ key_btn_x row i) && decide (selected_x ≤ key_btn_x row i + button_size) &&
  decide (selected_y ≥ key_y_offset row) && decide (selected_y ≤ key_y_offset row + button_size)

/-- special_y: the y coordinate of the special key row. -/
def special_keys_y : ℚ := 80 + 4 * (button_size + key_spacing) + 10

/-- The space_hovered test of vr_keyboard_render. -/
def space_is_hovered (selected_x selected_y : ℚ) : Bool :=
  decide (selected_x ≥ 100) && decide (selected_x ≤ 300) &&
  decide (selected_y ≥ special_keys_y) && decide (selected_y ≤ special_keys_y + button_size)

/-- The back_hovered test of vr_keyboard_render. -/
def back_is_hovered (selected_x selected_y : ℚ) : Bool :=
  decide (selected_x ≥ 302) && decide (selected_x ≤ 402) &&
  decide (selected_y ≥ special_keys_y) && decide (selected_y ≤ special_keys_y + button_size)

/-- The enter_hovered test of vr_keyboard_render. -/
def enter_is_hovered (selected_x selected_y : ℚ) : Bool :=
  decide (selected_x ≥ 404) && decide (selected_x ≤ 484) &&
  decide (selected_y ≥ special_keys_y) && decide (selected_y ≤ special_keys_y + button_size)

/-- One vr_update_controllers tick in which the runtime reports a single connected left-hand controller whose trigger axis reads a. -/
def tick_axis (s : GlState) (a : ℚ) : GlState :=
  vr_update_controllers s
    [⟨3, TrackedDeviceKind.controller, ETrackedControllerRole.leftHand, true, true,
      zeroMatrix34, ⟨a, 0⟩⟩]

/-- Drive the controller tracker from process start through the given trigger axis sequence and record the (pressed, released) edge flags of slot 0 after every tick. -/
def simulate_trigger (axes : List ℚ) : List (Bool × Bool) :=
  (axes.foldl
    (fun p a =>
      let s2 := tick_axis p.1 a
      (s2, p.2 ++ [(s2.g_controller0.trigger_pressed, s2.g_controller0.trigger_released)]))
    (initGlState, ([] : List (Bool × Bool)))).2

/- ───────────────────────── helper lemmas ───────────────────────── -/

/-- Applying one dashboard event never touches the dashboard write index. -/
lemma apply_dashboard_event_tex (s : GlState) (e : VREvent) :
    (apply_dashboard_event s e).g_dashboard_current_tex = s.g_dashboard_current_tex := by
  cases e with
  | mouseMove x y => rfl
  | mouseButtonDown b =>
      by_cases hb : b = VRMouseButton_Left <;> simp [apply_dashboard_event, hb]
  | mouseButtonUp b =>
      by_cases hb : b = VRMouseButton_Left <;> simp [apply_dashboard_event, hb]
  | otherEvent => rfl

/-- Draining any event list never touches the dashboard write index. -/
lemma process_dashboard_events_tex (events : List VREvent) : ∀ (s : GlState),
    (vr_process_dashboard_events s events).g_dashboard_current_tex =
      s.g_dashboard_current_tex := by
  induction events with
  | nil => intro s; rfl
  | cons e rest ih =>
      intro s
      have h1 : vr_process_dashboard_events s (e :: rest) =
          vr_process_dashboard_events (apply_dashboard_event s e) rest := rfl
      rw [h1, ih (apply_dashboard_event s e), apply_dashboard_event_tex]

/-- The HUD write index after a sequence of render-and-submit calls, from any in-range starting index. -/
lemma run_hud_submits_tex (oks : List Bool) : ∀ (s : GlState), s.g_current_tex < 2 →
    (run_hud_submits s oks).g_current_tex = (s.g_current_tex + oks.length) % 2 := by
  induction oks with
  | nil =>
      intro s hs
      simp only [run_hud_submits, List.foldl_nil, List.length_nil]
      omega
  | cons ok rest ih =>
      intro s hs
      have h1 : run_hud_submits s (ok :: rest) =
          run_hud_submits (imgui_render_hud s ok).1 rest := rfl
      rw [h1, ih (imgui_render_hud s ok).1 (by simp only [imgui_render_hud]; omega)]
      simp only [imgui_render_hud, List.length_cons]
      omega

/-- Pushing messages one by one onto an accumulator appends them in order. -/
lemma chat_foldl_append (msgs : List ChatMessage) : ∀ (acc : List ChatMessage),
    msgs.foldl (fun a m => a ++ [m]) acc = acc ++ msgs := by
  induction msgs with
  | nil => intro acc; simp
  | cons m rest ih => intro acc; simp [List.foldl_cons, ih]

/- ───────────────────────── claim theorems ───────────────────────── -/

/-- Claim C1 counterexample: the keyboard surface violates the claim as stated.  A call to the keyboard render-and-submit operation with the invalid overlay handle 0 returns false and leaves the keyboard write-target index unchanged, so that call does not advance the index by one modulo 2. -/
theorem keyboard_render_invalid_handle_no_advance :
    (vr_keyboard_render initGlState 0 true).1.g_keyboard_current_tex =
        initGlState.g_keyboard_current_tex ∧
      (vr_keyboard_render initGlState 0 true).2 = false ∧
      initGlState.g_keyboard_current_tex ≠ (initGlState.g_keyboard_current_tex + 1) % 2 := by
  refine ⟨rfl, rfl, ?_⟩
  decide

/-- Claim C1 (amended): every HUD and every Dashboard render-and-submit call advances that surface write-target index by exactly one modulo 2 regardless of the submission outcome, and across any sequence of HUD calls the index follows the strictly alternating pattern (start + number of calls) modulo 2, each call flipping it; the Keyboard render advances likewise for every valid (nonzero) overlay handle, while a keyboard call with the invalid handle returns false without advancing. -/
theorem submit_advances_write_index :
    (∀ (s : GlState) (ok : Bool),
        (imgui_render_hud s ok).1.g_current_tex = (s.g_current_tex + 1) % 2)
  ∧ (∀ (s : GlState) (events : List VREvent) (ok : Bool),
        (imgui_render_dashboard s events ok).1.g_dashboard_current_tex =
          (s.g_dashboard_current_tex + 1) % 2)
  ∧ (∀ (s : GlState) (handle : ℕ) (ok : Bool), handle ≠ 0 →
        (vr_keyboard_render s handle ok).1.g_keyboard_current_tex =
          (s.g_keyboard_current_tex + 1) % 2)
  ∧ (∀ (s : GlState) (oks : List Bool), s.g_current_tex < 2 →
        (run_hud_submits s oks).g_current_tex = (s.g_current_tex + oks.length) % 2)
  ∧ (∀ (s : GlState) (oks : List Bool) (ok : Bool), s.g_current_tex < 2 →
        (run_hud_submits s (oks ++ [ok])).g_current_tex ≠
          (run_hud_submits s oks).g_current_tex) := by
  refine ⟨fun s ok => rfl, ?_, ?_, ?_, ?_⟩
  · intro s events ok
    simp only [imgui_render_dashboard]
    rw [process_dashboard_events_tex]
  · intro s handle ok hne
    simp [vr_keyboard_render, k_ulOverlayHandleInvalid, hne]
  · intro s oks hs
    exact run_hud_submits_tex oks s hs
  · intro s oks ok hs
    rw [run_hud_submits_tex (oks ++ [ok]) s hs, run_hud_submits_tex oks s hs]
    simp only [List.length_append, List.length_cons, List.length_nil]
    omega

/-- Claim C1 witness: the amended theorem applied at concrete inputs, discharging the nonzero-handle and in-range-index hypotheses. -/
theorem submit_advances_write_index_witness :
    (imgui_render_hud initGlState true).1.g_current_tex = (initGlState.g_current_tex + 1) % 2 ∧
    (vr_keyboard_render initGlState 5 false).1.g_keyboard_current_tex =
      (initGlState.g_keyboard_current_tex + 1) % 2 ∧
    (run_hud_submits initGlState [true, false, true]).g_current_tex =
      (initGlState.g_current_tex + (List.length [true, false, true])) % 2 :=
  ⟨submit_advances_write_index.1 initGlState true,
    submit_advances_write_index.2.2.1 initGlState 5 false (by decide),
    submit_advances_write_index.2.2.2.1 initGlState [true, false, true] (by decide)⟩

/-- Claim C2: the per-tick trigger edge flags of every controller slot satisfy pressed iff (previous axis at most 0.5 and current axis above 0.5) and released iff (previous above 0.5 and current at most 0.5); hence they are never both true in one tick; and driving the tracker from process start through the axis sequence 0, 0.6, 0.6, 0 yields pressed flags false, true, false, false and released flags false, false, false, true. -/
theorem trigger_edge_flags_spec :
    (∀ (c : ControllerState) (r : DeviceReport),
        ((updateControllerSlot c r).trigger_pressed = true ↔
          (c.state.triggerAxis ≤ 0.5 ∧ (0.5 : ℚ) < r.controller_state.triggerAxis)) ∧
        ((updateControllerSlot c r).trigger_released = true ↔
          ((0.5 : ℚ) < c.state.triggerAxis ∧ r.controller_state.triggerAxis ≤ 0.5)) ∧
        ¬((updateControllerSlot c r).trigger_pressed = true ∧
          (updateControllerSlot c r).trigger_released = true))
  ∧ (mkRat 6 10 : ℚ) = 0.6
  ∧ simulate_trigger [0, mkRat 6 10, mkRat 6 10, 0] =
      [(false, false), (true, false), (false, false), (false, true)] := by
  have hhalf : (mkRat 1 2 : ℚ) = 0.5 := by norm_num [mkRat, Rat.normalize]
  refine ⟨?_, by norm_num [mkRat, Rat.normalize], by decide⟩
  intro c r
  have hp : (updateControllerSlot c r).trigger_pressed = true ↔
      (c.state.triggerAxis ≤ 0.5 ∧ (0.5 : ℚ) < r.controller_state.triggerAxis) := by
    simp [updateControllerSlot, hhalf, Bool.and_eq_true, Bool.not_eq_true',
      decide_eq_true_eq, decide_eq_false_iff_not, not_lt]
  have hr : (updateControllerSlot c r).trigger_released = true ↔
      ((0.5 : ℚ) < c.state.triggerAxis ∧ r.controller_state.triggerAxis ≤ 0.5) := by
    simp [updateControllerSlot, hhalf, Bool.and_eq_true, Bool.not_eq_true',
      decide_eq_true_eq, decide_eq_false_iff_not, not_lt]
  refine ⟨hp, hr, ?_⟩
  rintro ⟨h1, h2⟩
  have h3 := hp.mp h1
  have h4 := hr.mp h2
  exact absurd h4.1 (not_lt.mpr h3.1)

/-- The state after one vr_update_controllers tick in which the runtime reports the left controller as disconnected (bDeviceIsConnected false) while its freshly polled trigger axis reads 0.6, rising from the initial 0. -/
def disconnected_pressed_state : GlState :=
  vr_update_controllers initGlState
    [⟨2, TrackedDeviceKind.controller, ETrackedControllerRole.leftHand, false, true,
      zeroMatrix34, ⟨mkRat 6 10, 0⟩⟩]

/-- Claim C3 counterexample: a reachable state in which slot 0 has its stored connected flag false, yet the trigger-pressed query returns true instead of the no-data default false, because vr_get_controller_trigger_pressed checks only the slot range and never the connected flag. -/
theorem trigger_pressed_ignores_connected_flag :
    (vr_get_controller_connected disconnected_pressed_state 0).2 = false ∧
    (vr_get_controller_trigger_pressed disconnected_pressed_state 0).2 = true := by
  refine ⟨by decide, by decide⟩

/-- Claim C3 (amended): for an in-range slot whose stored connected flag is false, triggerValue returns 0, menuPressed returns false, the haptic pulse issues no command and the laser test returns the no-hit default for every runtime oracle; triggerPressed and triggerReleased however are guarded only by the slot-range check and return the stored per-tick edge flags even when the connected flag is false. -/
theorem disconnected_queries_defaults (s : GlState) (idx : Int) (handle : ℕ)
    (rt : HmdVector3 → HmdVector3 → Option (ℚ × ℚ × ℚ)) (dur : ℕ)
    (h0 : 0 ≤ idx) (h1 : idx ≤ 1) (hc : (getController s idx).connected = false) :
    vr_get_controller_trigger_value s idx = (s, 0) ∧
    vr_get_controller_menu_pressed s idx = (s, false) ∧
    vr_trigger_haptic_pulse s idx dur = (s, none) ∧
    vr_test_laser_intersection s idx handle rt = (s, noLaserHit) ∧
    vr_get_controller_trigger_pressed s idx = (s, (getController s idx).trigger_pressed) ∧
    vr_get_controller_trigger_released s idx = (s, (getController s idx).trigger_released) := by
  have hrange : ¬(idx < 0 ∨ idx > 1) := by omega
  refine ⟨?_, ?_, ?_, ?_, ?_, ?_⟩ <;>
    simp [vr_get_controller_trigger_value, vr_get_controller_menu_pressed,
      vr_trigger_haptic_pulse, vr_test_laser_intersection,
      vr_get_controller_trigger_pressed, vr_get_controller_trigger_released, hrange, hc]

/-- Claim C3 witness: the amended theorem applied at slot 0 of the initial state, whose connected flag is false. -/
theorem disconnected_queries_defaults_witness :
    vr_get_controller_trigger_value initGlState 0 = (initGlState, 0) ∧
    vr_get_controller_menu_pressed initGlState 0 = (initGlState, false) ∧
    vr_trigger_haptic_pulse initGlState 0 1000 = (initGlState, none) ∧
    vr_test_laser_intersection initGlState 0 3 (fun _ _ => none) = (initGlState, noLaserHit) ∧
    vr_get_controller_trigger_pressed initGlState 0 =
      (initGlState, (getController initGlState 0).trigger_pressed) ∧
    vr_get_controller_trigger_released initGlState 0 =
      (initGlState, (getController initGlState 0).trigger_released) :=
  disconnected_queries_defaults initGlState 0 3 (fun _ _ => none) 1000
    (by decide) (by decide) rfl

/-- Claim C4 counterexample: in the stub backend cited by the claim, the chat-transcript replace operation is a deliberate no-op, so an empty replacement batch does not clear the previously stored messages. -/
theorem stub_replace_keeps_old_messages :
    stub_imgui_update_chat_state ⟨[⟨"System", "stub keeps its own test messages"⟩]⟩ (some []) =
        ⟨[⟨"System", "stub keeps its own test messages"⟩]⟩ ∧
      ([⟨"System", "stub keeps its own test messages"⟩] : List ChatMessage) ≠ [] :=
  ⟨rfl, by decide⟩

/-- Claim C4 (amended): in the DX11 and GL backends the replace is total: for every prior transcript, replacing with a batch of N messages leaves exactly those N messages in order, an empty or null batch leaves the transcript empty; the headless stub backend however implements the replace as a documented no-op that keeps its own test messages. -/
theorem chat_replace_total (s : GlState) (msgs : List ChatMessage) (t : StubState)
    (batch : Option (List ChatMessage)) :
    (imgui_update_chat_state s (some msgs)).g_chat_messages = msgs ∧
    (imgui_update_chat_state s none).g_chat_messages = [] ∧
    stub_imgui_update_chat_state t batch = t := by
  refine ⟨?_, rfl, rfl⟩
  by_cases h : msgs.length > 0
  · simp [imgui_update_chat_state, h, chat_foldl_append]
  · have hnil : msgs = [] := List.length_eq_zero.mp (by omega)
    subst hnil
    simp [imgui_update_chat_state]

/-- Claim C5: whenever the slot is out of range, or the slot is not connected, or its pose is invalid, or the overlay handle is the invalid sentinel 0, the laser test returns hit false with the FLT_MAX distance sentinel and the same result for every runtime oracle, i.e. without consulting the intersection primitive. -/
theorem laser_guard_returns_no_hit (s : GlState) (idx : Int) (handle : ℕ)
    (rt : HmdVector3 → HmdVector3 → Option (ℚ × ℚ × ℚ))
    (h : idx < 0 ∨ 1 < idx ∨ (getController s idx).connected = false ∨
      (getController s idx).has_pose = false ∨ handle = k_ulOverlayHandleInvalid) :
    vr_test_laser_intersection s idx handle rt = (s, noLaserHit) ∧
    noLaserHit.hit = false ∧ noLaserHit.distance = FLT_MAX := by
  refine ⟨?_, rfl, rfl⟩
  by_cases hrange : idx < 0 ∨ idx > 1
  · simp [vr_test_laser_intersection, hrange]
  · cases hcon : (getController s idx).connected with
    | false => simp [vr_test_laser_intersection, hrange, hcon]
    | true =>
        cases hpose : (getController s idx).has_pose with
        | false => simp [vr_test_laser_intersection, hrange, hcon, hpose]
        | true =>
            have hhandle : handle = k_ulOverlayHandleInvalid := by
              rcases h with h | h | h | h | h
              · exact absurd (Or.inl h) hrange
              · exact absurd (Or.inr h) hrange
              · rw [hcon] at h; exact absurd h (by simp)
              · rw [hpose] at h; exact absurd h (by simp)
              · exact h
            simp [vr_test_laser_intersection, hrange, hcon, hpose, hhandle]

/-- Claim C5 witness: the guard theorem applied at an out-of-range slot with a live oracle that would report a hit, still returning the no-hit default. -/
theorem laser_guard_returns_no_hit_witness :
    vr_test_laser_intersection initGlState 2 7 (fun _ _ => some (1, 1, 1)) =
        (initGlState, noLaserHit) ∧
      noLaserHit.hit = false ∧ noLaserHit.distance = FLT_MAX :=
  laser_guard_returns_no_hit initGlState 2 7 (fun _ _ => some (1, 1, 1)) (by decide)

/-- Claim C6: after an update marks the dashboard state changed, the first poll yields the latest state together with true and clears the dirty flag, a second poll with no intervening update yields nothing, and two updates between polls collapse so that the poll observes only the last written value. -/
theorem dashboard_mailbox_destructive_read (s : GlState) (v v2 : DashboardState) :
    (imgui_update_dashboard_state s (some v)).g_dashboard_state = v ∧
    (imgui_get_dashboard_state (imgui_update_dashboard_state s (some v)) true).2 = some v ∧
    ((imgui_get_dashboard_state (imgui_update_dashboard_state s (some v)) true).1).g_dashboard_state_changed = false ∧
    (imgui_get_dashboard_state
        (imgui_get_dashboard_state (imgui_update_dashboard_state s (some v)) true).1 true).2 =
      none ∧
    (imgui_get_dashboard_state
        (imgui_update_dashboard_state (imgui_update_dashboard_state s (some v)) (some v2))
        true).2 = some v2 :=
  ⟨rfl, rfl, rfl, rfl, rfl⟩

/-- Claim C7: every public controller entry point called with an out-of-range slot returns the safe default for its type and leaves the wrapper state untouched. -/
theorem out_of_range_slot_safe_defaults (s : GlState) (idx : Int) (dur : ℕ) (handle : ℕ)
    (rt : HmdVector3 → HmdVector3 → Option (ℚ × ℚ × ℚ)) (h : idx < 0 ∨ 1 < idx) :
    vr_get_controller_connected s idx = (s, false) ∧
    vr_get_controller_trigger_value s idx = (s, 0) ∧
    vr_get_controller_trigger_pressed s idx = (s, false) ∧
    vr_get_controller_trigger_released s idx = (s, false) ∧
    vr_get_controller_menu_pressed s idx = (s, false) ∧
    vr_trigger_haptic_pulse s idx dur = (s, none) ∧
    vr_test_laser_intersection s idx handle rt = (s, noLaserHit) := by
  have h2 : idx < 0 ∨ idx > 1 := h
  refine ⟨?_, ?_, ?_, ?_, ?_, ?_, ?_⟩ <;>
    simp [vr_get_controller_connected, vr_get_controller_trigger_value,
      vr_get_controller_trigger_pressed, vr_get_controller_trigger_released,
      vr_get_controller_menu_pressed, vr_trigger_haptic_pulse,
      vr_test_laser_intersection, h2]

/-- Claim C7 witness: the safe-default theorem applied at the out-of-range slot 2. -/
theorem out_of_range_slot_safe_defaults_witness :
    vr_get_controller_connected initGlState 2 = (initGlState, false) ∧
    vr_get_controller_trigger_value initGlState 2 = (initGlState, 0) ∧
    vr_get_controller_trigger_pressed initGlState 2 = (initGlState, false) ∧
    vr_get_controller_trigger_released initGlState 2 = (initGlState, false) ∧
    vr_get_controller_menu_pressed initGlState 2 = (initGlState, false) ∧
    vr_trigger_haptic_pulse initGlState 2 500 = (initGlState, none) ∧
    vr_test_laser_intersection initGlState 2 0 (fun _ _ => none) = (initGlState, noLaserHit) :=
  out_of_range_slot_safe_defaults initGlState 2 500 0 (fun _ _ => none) (by decide)

/-- Claim C8: for every key of the keyboard layout the hover classification is true exactly when the pointer lies within the hand-computed bounding box with inclusive comparisons on all four edges, so all four corners of the box count as hovering; the same holds for the three special keys. -/
theorem key_hover_inclusive_bounds (row i : ℕ) (x y : ℚ)
    (hrow : row < 4) (hi : i < kbRowLength row) :
    (key_is_hovered row i x y = true ↔
      (key_btn_x row i ≤ x ∧ x ≤ key_btn_x row i + button_size ∧
        key_y_offset row ≤ y ∧ y ≤ key_y_offset row + button_size)) ∧
    key_is_hovered row i (key_btn_x row i) (key_y_offset row) = true ∧
    key_is_hovered row i (key_btn_x row i + button_size) (key_y_offset row) = true ∧
    key_is_hovered row i (key_btn_x row i) (key_y_offset row + button_size) = true ∧
    key_is_hovered row i (key_btn_x row i + button_size)
      (key_y_offset row + button_size) = true ∧
    (∀ x2 y2 : ℚ, space_is_hovered x2 y2 = true ↔
      (100 ≤ x2 ∧ x2 ≤ 300 ∧ special_keys_y ≤ y2 ∧ y2 ≤ special_keys_y + button_size)) ∧
    (∀ x2 y2 : ℚ, back_is_hovered x2 y2 = true ↔
      (302 ≤ x2 ∧ x2 ≤ 402 ∧ special_keys_y ≤ y2 ∧ y2 ≤ special_keys_y + button_size)) ∧
    (∀ x2 y2 : ℚ, enter_is_hovered x2 y2 = true ↔
      (404 ≤ x2 ∧ x2 ≤ 484 ∧ special_keys_y ≤ y2 ∧ y2 ≤ special_keys_y + button_size)) := by
  have hbs : (0 : ℚ) ≤ button_size := by norm_num [button_size]
  have hiff : ∀ a b : ℚ, key_is_hovered row i a b = true ↔
      (key_btn_x row i ≤ a ∧ a ≤ key_btn_x row i + button_size ∧
        key_y_offset row ≤ b ∧ b ≤ key_y_offset row + button_size) := by
    intro a b
    simp [key_is_hovered, Bool.and_eq_true, decide_eq_true_eq, ge_iff_le, and_assoc]
  refine ⟨hiff x y, ?_, ?_, ?_, ?_, ?_, ?_, ?_⟩
  · exact (hiff _ _).mpr ⟨le_refl _, by linarith, le_refl _, by linarith⟩
  · exact (hiff _ _).mpr ⟨by linarith, le_refl _, le_refl _, by linarith⟩
  · exact (hiff _ _).mpr ⟨le_refl _, by linarith, by linarith, le_refl _⟩
  · exact (hiff _ _).mpr ⟨by linarith, le_refl _, by linarith, le_refl _⟩
  · intro x2 y2
    simp [space_is_hovered, Bool.and_eq_true, decide_eq_true_eq, ge_iff_le, and_assoc]
  · intro x2 y2
    simp [back_is_hovered, Bool.and_eq_true, decide_eq_true_eq, ge_iff_le, and_assoc]
  · intro x2 y2
    simp [enter_is_hovered, Bool.and_eq_true, decide_eq_true_eq, ge_iff_le, and_assoc]

/-- Claim C8 witness: the hover theorem applied to key 0 of row 0, certifying the top-left corner of its bounding box as hovering. -/
theorem key_hover_inclusive_bounds_witness :
    key_is_hovered 0 0 (key_btn_x 0 0) (key_y_offset 0) = true :=
  (key_hover_inclusive_bounds 0 0 0 0 (by decide) (by decide)).2.1

/-- Claim C9: if the HUD overlay is created successfully and the dashboard creation fails, vr_create_overlays destroys the HUD overlay, resets g_handle to the invalid sentinel and returns false, leaving the set of runtime-allocated overlays exactly as before the call; the two other failure shapes also leave everything unchanged, and the success path allocates both. -/
theorem create_overlays_rollback_on_dashboard_failure (s : GlState) (live : List ℕ)
    (h d : ℕ) :
    vr_create_overlays s live (some h) none =
        ({ s with g_handle := k_ulOverlayHandleInvalid }, live, false) ∧
    vr_create_overlays s live none none = (s, live, false) ∧
    vr_create_overlays s live none (some d) = (s, live, false) ∧
    vr_create_overlays s live (some h) (some d) =
        ({ s with g_handle := h, g_dashboard_handle := d }, d :: h :: live, true) := by
  refine ⟨?_, rfl, rfl, rfl⟩
  simp [vr_create_overlays, List.erase_cons_head]

/-- Claim C10: for a non-null buffer and positive capacity, the sent-message poll writes a buffer of length exactly capacity (never touching bytes beyond it), whose last byte (at index capacity minus one) is the null terminator, and whose message-derived content is exactly the pending message truncated to at most capacity minus one bytes; with no pending message, or a null buffer, nothing is written at all. -/
theorem sent_message_buffer_bounds (s : GlState) (capacity : ℕ) (hcap : 0 < capacity) :
    (imgui_get_sent_message s false capacity = (s, none)) ∧
    (s.g_message_sent = false → imgui_get_sent_message s true capacity = (s, none)) ∧
    (s.g_message_sent = true →
      ∃ out : List ℕ,
        (imgui_get_sent_message s true capacity).2 = some out ∧
        out.length = capacity ∧
        out.getLast? = some 0 ∧
        out.take ((capacity - 1) ⊓ s.g_input_buffer.length) =
          s.g_input_buffer.take (capacity - 1) ∧
        (imgui_get_sent_message s true capacity).1.g_message_sent = false) := by
  have hd : decide (0 < capacity) = true := decide_eq_true hcap
  refine ⟨by simp [imgui_get_sent_message], ?_, ?_⟩
  · intro hm
    simp [imgui_get_sent_message, hm]
  · intro hm
    refine ⟨strncpy_fill s.g_input_buffer (capacity - 1) ++ [0], ?_, ?_, ?_, ?_, ?_⟩
    · simp [imgui_get_sent_message, hm, hd]
    · simp only [strncpy_fill, List.length_append, List.length_take,
        List.length_replicate, List.length_cons, List.length_nil]
      omega
    · exact List.getLast?_concat _
    · rw [strncpy_fill, List.append_assoc]
      exact List.take_left' (by simp [List.length_take, Nat.min_comm])
    · simp [imgui_get_sent_message, hm, hd]

/-- A reachable-shaped state with a pending sent message of five bytes in the input buffer. -/
def sent_pending_state : GlState :=
  { initGlState with g_message_sent := true, g_input_buffer := [104, 101, 108, 108, 111] }

/-- Claim C10 witness: the buffer-bounds theorem applied with capacity 4 to a pending five-byte message, so the copy truncates to three bytes plus the terminator. -/
theorem sent_message_buffer_bounds_witness :
    ∃ out : List ℕ,
      (imgui_get_sent_message sent_pending_state true 4).2 = some out ∧
      out.length = 4 ∧
      out.getLast? = some 0 ∧
      out.take ((4 - 1) ⊓ sent_pending_state.g_input_buffer.length) =
        sent_pending_state.g_input_buffer.take (4 - 1) ∧
      (imgui_get_sent_message sent_pending_state true 4).1.g_message_sent = false :=
  (sent_message_buffer_bounds sent_pending_state 4 (by decide)).2.2 rfl
